import Mathlib

/-!
Shallow embedding of `Sources/CLibarchive/libarchive_wrapper.c` from the
SwiftLibarchive repository.

The wrapper orchestrates libarchive: every call into libarchive (reading a
header, reading or writing a data block, opening a file, ...) is an external
event whose outcome is not determined by the wrapper itself.  We therefore
model each wrapper function as a deterministic function of an explicit
*environment* that records the outcome of every external call the function
makes (status codes, the value of the volatile cancel flag at each poll,
the shape of the directory tree being walked).  Alongside the result code
each function produces an effect *trace* recording which resources were
created, closed and freed, whether the working directory was changed and
restored, and how many write calls were issued — the observable side
effects the specification talks about.

Loops whose iteration count is driven by the external world (`for (;;)` over
`archive_read_next_header` / `archive_read_data_block`) consume a list of
per-iteration events; if the list is exhausted before the loop exits we
return `none` (the environment did not describe a terminating run).
-/

namespace SwiftLibarchive

/-! ## Status codes from libarchive's `archive.h` -/

def ARCHIVE_EOF : Int := 1

def ARCHIVE_OK : Int := 0

def ARCHIVE_RETRY : Int := -10

def ARCHIVE_WARN : Int := -20

def ARCHIVE_FAILED : Int := -25

def ARCHIVE_FATAL : Int := -30

/-! ## Error codes defined in `libarchive_wrapper.c` (lines 147-162) -/

def SUCCESS : Int := 0

def ERROR_CREATE_ARCHIVE_FAILED : Int := -1

def ERROR_OPEN_FILE_FAILED : Int := -2

def ERROR_READ_ENTRY_FAILED : Int := -3

def ERROR_EXTRACT_FAILED : Int := -4

def ERROR_COMPRESS_FAILED : Int := -5

def ERROR_PASSWORD_REQUIRED : Int := -6

def ERROR_WRONG_PASSWORD : Int := -7

def ERROR_UNSUPPORTED_FORMAT : Int := -8

def ERROR_OPERATION_CANCELLED : Int := -9

def ENCRYPTION_NONE : Int := 0

def ENCRYPTION_PRESENT : Int := 1

/-! ## Data Copier (`copy_data`, lines 19-41)

One `CopyIter` describes one iteration of the `for (;;)` loop: the value of
`*cancel_flag` at the poll at the top of the loop, the status returned by
`archive_read_data_block`, and the status `archive_write_data_block` would
return if called.  `hasCancel` models `cancel_flag != NULL`. -/

structure CopyIter where
  cancelSet : Bool
  readStatus : Int
  writeStatus : Int
deriving Repr, DecidableEq

/-- Model of `copy_data`.  Returns the result code (`none` when the supplied
iteration list is exhausted before the loop exits) together with the number
of `archive_write_data_block` calls issued. -/
def copy_data (hasCancel : Bool) : List CopyIter → Option Int × Nat
  | [] => (none, 0)
  | it :: rest =>
    if hasCancel ∧ it.cancelSet then (some ERROR_OPERATION_CANCELLED, 0)
    else if it.readStatus = ARCHIVE_EOF then (some ARCHIVE_OK, 0)
    else if it.readStatus < ARCHIVE_OK then (some it.readStatus, 0)
    else if it.writeStatus < ARCHIVE_OK then (some it.writeStatus, 1)
    else
      let r := copy_data hasCancel rest
      (r.1, r.2 + 1)

/-! ## Extraction Engine (`extract_archive`, lines 172-312)

One `ExtractIter` describes one iteration of the entry loop: the cancel
poll, the status of `archive_read_next_header`, whether
`archive_entry_is_encrypted` holds for the returned entry, the status of
`archive_write_header(ext, entry)`, the entry's size, and the events
consumed by `copy_data` if it is invoked for this entry. -/

structure ExtractIter where
  cancelSet : Bool
  headerStatus : Int
  encrypted : Bool
  writeHeaderStatus : Int
  entrySize : Int
  copyIters : List CopyIter
deriving Repr, DecidableEq

/-- Effect trace of one `extract_archive` run. -/
structure ExtractTrace where
  readCreated : Bool
  writeCreated : Bool
  mkdirCalled : Bool
  changedDir : Bool
  restoredDir : Bool
  readClosed : Bool
  readFreed : Bool
  writeClosed : Bool
  writeFreed : Bool
  diskWrites : Nat
deriving Repr, DecidableEq

/-- Trace of the early-cancel return at lines 182-185: nothing was created,
opened, written or changed. -/
def ExtractTrace.initial : ExtractTrace :=
  { readCreated := false, writeCreated := false, mkdirCalled := false,
    changedDir := false, restoredDir := false, readClosed := false,
    readFreed := false, writeClosed := false, writeFreed := false,
    diskWrites := 0 }

/-- The unified `cleanup:` block (lines 296-311): restore the working
directory iff it was changed, close and free each session iff it was
created (`a != NULL` / `ext != NULL`). -/
def extractCleanup (result : Int) (readCreated writeCreated mkdirCalled changedDir : Bool)
    (writes : Nat) : Int × ExtractTrace :=
  (result,
   { readCreated := readCreated, writeCreated := writeCreated,
     mkdirCalled := mkdirCalled, changedDir := changedDir,
     restoredDir := changedDir,
     readClosed := readCreated, readFreed := readCreated,
     writeClosed := writeCreated, writeFreed := writeCreated,
     diskWrites := writes })

/-- The entry loop of `extract_archive` (lines 241-294).  Returns the final
`result` together with the number of write calls issued against the
write-to-disk session (`archive_write_header` plus data-block writes);
`none` when the iteration list is exhausted before the loop exits. -/
def extractLoop (hasCancel passwordGiven : Bool) : List ExtractIter → Option (Int × Nat)
  | [] => none
  | it :: rest =>
    if hasCancel ∧ it.cancelSet then some (ERROR_OPERATION_CANCELLED, 0)
    else if it.headerStatus = ARCHIVE_EOF then some (SUCCESS, 0)
    else if it.headerStatus = ARCHIVE_RETRY then extractLoop hasCancel passwordGiven rest
    else if it.encrypted ∧ ¬ passwordGiven then some (ERROR_PASSWORD_REQUIRED, 0)
    else if it.encrypted ∧ it.headerStatus < ARCHIVE_OK then some (ERROR_WRONG_PASSWORD, 0)
    else if it.headerStatus ≠ ARCHIVE_WARN ∧ it.headerStatus < ARCHIVE_OK then
      some (ERROR_READ_ENTRY_FAILED, 0)
    else if it.writeHeaderStatus < ARCHIVE_OK then
      (extractLoop hasCancel passwordGiven rest).map (fun p => (p.1, p.2 + 1))
    else if 0 < it.entrySize then
      match copy_data hasCancel it.copyIters with
      | (none, _) => none
      | (some r, w) =>
        if r = ERROR_OPERATION_CANCELLED then some (ERROR_OPERATION_CANCELLED, w + 1)
        else if r < ARCHIVE_OK then some (ERROR_EXTRACT_FAILED, w + 1)
        else (extractLoop hasCancel passwordGiven rest).map (fun p => (p.1, p.2 + w + 1))
    else (extractLoop hasCancel passwordGiven rest).map (fun p => (p.1, p.2 + 1))

/-- Environment of one `extract_archive` run: the cancel flag at the entry
check (line 182), the status of `archive_read_add_passphrase` (consulted
only when a password was supplied), the status of
`archive_read_open_filename`, whether `stat(destination_path)` failed (then
`mkdir` is called), whether `getcwd` and `chdir(destination_path)` succeed,
and the entry-loop events. -/
structure ExtractEnv where
  cancelAtEntry : Bool
  addPassStatus : Int
  openStatus : Int
  destMissing : Bool
  getcwdOk : Bool
  chdirOk : Bool
  iters : List ExtractIter
deriving Repr, DecidableEq

/-- Model of `extract_archive`.  `hasCancel` is `cancel_flag != NULL`,
`passwordGiven` is `password != NULL`. -/
def extract_archive (hasCancel passwordGiven : Bool) (env : ExtractEnv) :
    Option (Int × ExtractTrace) :=
  if hasCancel ∧ env.cancelAtEntry then
    some (ERROR_OPERATION_CANCELLED, ExtractTrace.initial)
  else if passwordGiven ∧ env.addPassStatus ≠ ARCHIVE_OK then
    some (extractCleanup ERROR_WRONG_PASSWORD true false false false 0)
  else if env.openStatus ≠ ARCHIVE_OK then
    some (extractCleanup ERROR_OPEN_FILE_FAILED true true false false 0)
  else if ¬ env.getcwdOk then
    some (extractCleanup ERROR_EXTRACT_FAILED true true env.destMissing false 0)
  else if ¬ env.chdirOk then
    some (extractCleanup ERROR_EXTRACT_FAILED true true env.destMissing false 0)
  else
    (extractLoop hasCancel passwordGiven env.iters).map
      (fun p => extractCleanup p.1 true true env.destMissing true p.2)

/-! ## Directory Walker (`add_directory_to_archive`, lines 44-144)

A directory listing is a list of children, each paired with the value of
`*cancel_flag` at the poll performed for its `readdir` iteration.  A child
is one of: the `.`/`..` pseudo-entries (skipped), a child whose `stat`
fails (skipped), a child that is neither a directory nor a regular file
(silently skipped), a subdirectory (with the status of the
`archive_write_header` call for its directory entry and, when recursing,
`none` if the nested `opendir` fails, otherwise its own listing), or a
regular file (header-write status, whether `fopen` succeeds, and the
statuses the `archive_write_data` calls for its successive chunks would
return — the code never examines them). -/

inductive DirChild : Type where
  | dot : DirChild
  | statFail : DirChild
  | otherType : DirChild
  | subdir : Int → Option (List (Bool × DirChild)) → DirChild
  | regfile : Int → Bool → List Int → DirChild
deriving Repr

/-- The `while ((entry = readdir(dir)) != NULL)` body of
`add_directory_to_archive`, for a directory whose `opendir` succeeded.
Returns the result status and the number of `archive_write_data` calls
issued in this walk. -/
def addChildren (hasCancel : Bool) : List (Bool × DirChild) → Int × Nat
  | [] => (ARCHIVE_OK, 0)
  | (c, child) :: rest =>
    if hasCancel ∧ c then (ERROR_OPERATION_CANCELLED, 0)
    else
      match child with
      | .dot => addChildren hasCancel rest
      | .statFail => addChildren hasCancel rest
      | .otherType => addChildren hasCancel rest
      | .subdir h listing =>
        if h < ARCHIVE_OK then (h, 0)
        else
          let sub :=
            match listing with
            | none => (ARCHIVE_FATAL, 0)
            | some cs => addChildren hasCancel cs
          if sub.1 < ARCHIVE_OK then sub
          else
            let r := addChildren hasCancel rest
            (r.1, sub.2 + r.2)
      | .regfile h fileOk chunks =>
        if h < ARCHIVE_OK then (h, 0)
        else if fileOk then
          let r := addChildren hasCancel rest
          (r.1, chunks.length + r.2)
        else (ARCHIVE_FATAL, 0)

/-- Model of `add_directory_to_archive`: `none` stands for a directory whose
`opendir` fails (lines 52-56, returns `ARCHIVE_FATAL`). -/
def add_directory_to_archive (hasCancel : Bool) :
    Option (List (Bool × DirChild)) → Int × Nat
  | none => (ARCHIVE_FATAL, 0)
  | some cs => addChildren hasCancel cs

/-! ## Compression Engine (`compress_files`, lines 322-486) -/

/-- Environment for the single-regular-file branch (lines 426-472): the
status of the `archive_write_header` call, whether `fopen` succeeds, and
for each successful `fread` chunk the cancel poll before its write and the
status the `archive_write_data` call would return (never examined by the
code). -/
structure RegInfo where
  headerStatus : Int
  fileOpenOk : Bool
  chunks : List (Bool × Int)
deriving Repr

/-- What `stat(source_path)` reports the source to be. -/
inductive SrcKind : Type where
  | dir : Option (List (Bool × DirChild)) → SrcKind
  | reg : RegInfo → SrcKind
  | otherType : SrcKind
deriving Repr

/-- Environment of one `compress_files` run: cancel flag at the entry check
(line 328), the source (`none` when `stat` fails), the statuses of
`archive_write_set_passphrase`, `archive_write_set_options` and
`archive_write_open_filename`. -/
structure CompressEnv where
  cancelAtEntry : Bool
  src : Option SrcKind
  setPassStatus : Int
  setOptStatus : Int
  openDestStatus : Int
deriving Repr

/-- Effect trace of one `compress_files` run. -/
structure CompressTrace where
  writeNewCalled : Bool
  passphraseRegistered : Bool
  destOpenAttempted : Bool
  sessionClosed : Bool
  sessionFreed : Bool
  dataWrites : Nat
deriving Repr, DecidableEq

/-- Trace of the early-cancel return at lines 328-331: nothing created. -/
def CompressTrace.initial : CompressTrace :=
  { writeNewCalled := false, passphraseRegistered := false,
    destOpenAttempted := false, sessionClosed := false, sessionFreed := false,
    dataWrites := 0 }

/-- The `cleanup:` block of `compress_files` (lines 479-483): close and free
the write-session iff `a != NULL`, i.e. iff `archive_write_new` ran. -/
def compressCleanup (result : Int) (writeNew passReg destOpen : Bool) (writes : Nat) :
    Int × CompressTrace :=
  (result,
   { writeNewCalled := writeNew, passphraseRegistered := passReg,
     destOpenAttempted := destOpen,
     sessionClosed := writeNew, sessionFreed := writeNew,
     dataWrites := writes })

/-- The `switch (format)` at lines 344-382 has cases exactly for 1..9; any
other selector falls to `default` and `ERROR_UNSUPPORTED_FORMAT`. -/
def validFormat (format : Int) : Bool :=
  format == 1 || format == 2 || format == 3 || format == 4 || format == 5 ||
  format == 6 || format == 7 || format == 8 || format == 9

/-- The `while ((bytes_read = fread(...)) > 0)` loop of the single-file
branch (lines 458-466): polls the cancel flag before each chunk, then calls
`archive_write_data` ignoring its status.  Returns whether the loop was
cancelled and the number of `archive_write_data` calls issued. -/
def writeFileChunks (hasCancel : Bool) : List (Bool × Int) → Bool × Nat
  | [] => (false, 0)
  | (c, _) :: rest =>
    if hasCancel ∧ c then (true, 0)
    else
      let r := writeFileChunks hasCancel rest
      (r.1, r.2 + 1)

/-- Model of `compress_files`.  `hasCancel` is `cancel_flag != NULL`,
`passwordGiven` is `password != NULL`, `format` is the numeric selector. -/
def compress_files (hasCancel passwordGiven : Bool) (format : Int) (env : CompressEnv) :
    Int × CompressTrace :=
  if hasCancel ∧ env.cancelAtEntry then
    (ERROR_OPERATION_CANCELLED, CompressTrace.initial)
  else
    match env.src with
    | none => compressCleanup ERROR_OPEN_FILE_FAILED false false false 0
    | some src =>
      if ¬ validFormat format then
        compressCleanup ERROR_UNSUPPORTED_FORMAT true false false 0
      else if passwordGiven ∧ (format = 1 ∨ format = 6) ∧ env.setPassStatus ≠ ARCHIVE_OK then
        compressCleanup ERROR_COMPRESS_FAILED true true false 0
      else if passwordGiven ∧ format = 1 ∧ env.setPassStatus = ARCHIVE_OK ∧
          env.setOptStatus ≠ ARCHIVE_OK then
        compressCleanup ERROR_COMPRESS_FAILED true true false 0
      else
        let passReg := passwordGiven && (format == 1 || format == 6)
        if env.openDestStatus ≠ ARCHIVE_OK then
          compressCleanup ERROR_CREATE_ARCHIVE_FAILED true passReg true 0
        else
          match src with
          | .dir listing =>
            let w := add_directory_to_archive hasCancel listing
            if w.1 < ARCHIVE_OK then
              compressCleanup
                (if w.1 = ERROR_OPERATION_CANCELLED then ERROR_OPERATION_CANCELLED
                 else ERROR_COMPRESS_FAILED)
                true passReg true w.2
            else compressCleanup SUCCESS true passReg true w.2
          | .reg info =>
            if info.headerStatus < ARCHIVE_OK then
              compressCleanup ERROR_COMPRESS_FAILED true passReg true 0
            else if info.fileOpenOk then
              let r := writeFileChunks hasCancel info.chunks
              if r.1 then compressCleanup ERROR_OPERATION_CANCELLED true passReg true r.2
              else compressCleanup SUCCESS true passReg true r.2
            else compressCleanup ERROR_OPEN_FILE_FAILED true passReg true 0
          | .otherType => compressCleanup ERROR_UNSUPPORTED_FORMAT true passReg true 0

/-! ## Inspection utility (`check_archive_encryption`, lines 494-530)

Each element of `entries` is one `archive_read_next_header` outcome: its
status and the `archive_entry_is_encrypted` flag of the returned entry. -/

/-- The `while (archive_read_next_header(a, &entry) == ARCHIVE_OK)` scan
(lines 513-519): any status other than `ARCHIVE_OK` ends the loop with
`has_encrypted_entries` unchanged; an encrypted entry ends it with the flag
set; `none` when the list is exhausted with the loop still running. -/
def encScan : List (Int × Bool) → Option Bool
  | [] => none
  | (st, enc) :: rest =>
    if st = ARCHIVE_OK then
      if enc then some true else encScan rest
    else some false

/-- Model of `check_archive_encryption`: `openStatus` is the
`archive_read_open_filename` status. -/
def check_archive_encryption (openStatus : Int) (entries : List (Int × Bool)) : Option Int :=
  if openStatus ≠ ARCHIVE_OK then some ERROR_OPEN_FILE_FAILED
  else (encScan entries).map (fun b => if b then ENCRYPTION_PRESENT else ENCRYPTION_NONE)

/-! ## Specification-side definitions and concrete environments -/

/-- Follows the words of claim C3: "some entry before the first non-OK
header-read status has the encrypted flag set". -/
def specEncryptedBeforeStop : List (Int × Bool) → Bool
  | [] => false
  | (st, enc) :: rest => st == ARCHIVE_OK && (enc || specEncryptedBeforeStop rest)

/-- A walk environment in which every event other than the data-block write
statuses succeeds: no cancel poll fires, every `opendir` succeeds, every
`stat` outcome is as recorded, every header write returns a non-negative
status and every `fopen` succeeds.  The chunk write statuses are left
completely unconstrained. -/
def childrenNoFailure : List (Bool × DirChild) → Bool
  | [] => true
  | (c, child) :: rest =>
    !c &&
    (match child with
     | .dot => childrenNoFailure rest
     | .statFail => childrenNoFailure rest
     | .otherType => childrenNoFailure rest
     | .subdir h listing =>
       !(decide (h < ARCHIVE_OK)) &&
       (match listing with
        | none => false
        | some cs => childrenNoFailure cs) &&
       childrenNoFailure rest
     | .regfile h fileOk _ => !(decide (h < ARCHIVE_OK)) && fileOk && childrenNoFailure rest)

/-- Extraction run: one entry of size 1 whose data copy hits a fatal
read-side status (`archive_read_data_block` returns `ARCHIVE_FATAL`). -/
def readFailRunEnv : ExtractEnv :=
  { cancelAtEntry := false, addPassStatus := ARCHIVE_OK, openStatus := ARCHIVE_OK,
    destMissing := false, getcwdOk := true, chdirOk := true,
    iters := [{ cancelSet := false, headerStatus := ARCHIVE_OK, encrypted := false,
                writeHeaderStatus := ARCHIVE_OK, entrySize := 1,
                copyIters := [{ cancelSet := false, readStatus := ARCHIVE_FATAL,
                                writeStatus := ARCHIVE_OK }] }] }

/-- Extraction run: one entry of size 1 whose data copy hits a failing
write-side status (`archive_write_data_block` returns `ARCHIVE_FAILED`). -/
def writeFailRunEnv : ExtractEnv :=
  { cancelAtEntry := false, addPassStatus := ARCHIVE_OK, openStatus := ARCHIVE_OK,
    destMissing := false, getcwdOk := true, chdirOk := true,
    iters := [{ cancelSet := false, headerStatus := ARCHIVE_OK, encrypted := false,
                writeHeaderStatus := ARCHIVE_OK, entrySize := 1,
                copyIters := [{ cancelSet := false, readStatus := ARCHIVE_OK,
                                writeStatus := ARCHIVE_FAILED }] }] }

/-- Extraction run that succeeds after one end-of-stream header read. -/
def fullRunEnv : ExtractEnv :=
  { cancelAtEntry := false, addPassStatus := ARCHIVE_OK, openStatus := ARCHIVE_OK,
    destMissing := false, getcwdOk := true, chdirOk := true,
    iters := [{ cancelSet := false, headerStatus := ARCHIVE_EOF, encrypted := false,
                writeHeaderStatus := ARCHIVE_OK, entrySize := 0, copyIters := [] }] }

/-- The trace of `fullRunEnv`'s successful run. -/
def fullRunTrace : ExtractTrace := (extractCleanup SUCCESS true true false true 0).2

/-- The entry-loop iteration used to witness claim C2: an encrypted entry
whose header read returned `ARCHIVE_WARN` (a negative status). -/
def encWarnIter : ExtractIter :=
  { cancelSet := false, headerStatus := ARCHIVE_WARN, encrypted := true,
    writeHeaderStatus := ARCHIVE_OK, entrySize := 0, copyIters := [] }

/-- Extraction environment delivering `encWarnIter` as the first entry. -/
def encWarnEnv : ExtractEnv :=
  { cancelAtEntry := false, addPassStatus := ARCHIVE_OK, openStatus := ARCHIVE_OK,
    destMissing := false, getcwdOk := true, chdirOk := true, iters := [encWarnIter] }

/-- Extraction environment whose cancel flag is already set at entry. -/
def cancelledExtractEnv : ExtractEnv :=
  { cancelAtEntry := true, addPassStatus := ARCHIVE_OK, openStatus := ARCHIVE_OK,
    destMissing := false, getcwdOk := true, chdirOk := true, iters := [] }

/-- Compression environment whose cancel flag is already set at entry. -/
def cancelledCompressEnv : CompressEnv :=
  { cancelAtEntry := true, src := none, setPassStatus := ARCHIVE_OK,
    setOptStatus := ARCHIVE_OK, openDestStatus := ARCHIVE_OK }

/-- Compression environment: existing regular-file source whose single data
chunk's `archive_write_data` call would report `ARCHIVE_FAILED`. -/
def regChunkFailEnv : CompressEnv :=
  { cancelAtEntry := false,
    src := some (.reg { headerStatus := ARCHIVE_OK, fileOpenOk := true,
                        chunks := [(false, ARCHIVE_FAILED)] }),
    setPassStatus := ARCHIVE_OK, setOptStatus := ARCHIVE_OK,
    openDestStatus := ARCHIVE_OK }

/-- Compression environment: directory source holding one regular file whose
single data chunk's `archive_write_data` call would report `ARCHIVE_FATAL`. -/
def dirChunkFailEnv : CompressEnv :=
  { cancelAtEntry := false,
    src := some (.dir (some [(false, .regfile ARCHIVE_OK true [ARCHIVE_FATAL])])),
    setPassStatus := ARCHIVE_OK, setOptStatus := ARCHIVE_OK,
    openDestStatus := ARCHIVE_OK }

/-! ## Helper lemmas -/

/-- The encryption scan computes exactly "some entry before the first
non-OK header status is encrypted". -/
theorem encScan_eq_spec :
    ∀ entries b, encScan entries = some b → b = specEncryptedBeforeStop entries := by
  intro entries
  induction entries with
  | nil => intro b h; simp [encScan] at h
  | cons e rest ih =>
    intro b h
    obtain ⟨st, enc⟩ := e
    simp only [encScan] at h
    split at h
    · next hst =>
      split at h
      · next henc =>
        simp only [Option.some.injEq] at h
        subst h
        simp [specEncryptedBeforeStop, hst, henc]
      · next henc =>
        have henc' : enc = false := by simpa using henc
        simp [specEncryptedBeforeStop, hst, henc', ih b h]
    · next hst =>
      simp only [Option.some.injEq] at h
      subst h
      simp [specEncryptedBeforeStop, hst]

/-- If no cancel poll fires, the single-file chunk loop is never cancelled
and writes every chunk. -/
theorem writeFileChunks_not_cancelled (hasCancel : Bool) :
    ∀ chunks, (∀ p ∈ chunks, p.1 = false) →
      writeFileChunks hasCancel chunks = (false, chunks.length) := by
  intro chunks
  induction chunks with
  | nil => intro _; simp [writeFileChunks]
  | cons p rest ih =>
    intro h
    have hp : p.1 = false := h p (List.mem_cons_self p rest)
    have hrest := ih (fun q hq => h q (List.mem_cons_of_mem p hq))
    simp [writeFileChunks, hp, hrest]

/-- In a walk environment with no failures outside the data-write statuses,
the Directory Walker returns `ARCHIVE_OK`. -/
theorem addChildren_fst_ok (hasCancel : Bool) :
    ∀ cs, childrenNoFailure cs = true → (addChildren hasCancel cs).1 = ARCHIVE_OK := by
  intro cs
  induction cs using addChildren.induct hasCancel with
  | case1 => intro _; simp [addChildren]
  | case2 c child rest hc =>
    intro hok
    exfalso
    rw [childrenNoFailure.eq_def] at hok
    simp [hc.2] at hok
  | case3 c rest hc ih =>
    intro hok
    simp only [childrenNoFailure, Bool.and_eq_true] at hok
    simp [addChildren, hc, ih hok.2]
  | case4 c rest hc ih =>
    intro hok
    simp only [childrenNoFailure, Bool.and_eq_true] at hok
    simp [addChildren, hc, ih hok.2]
  | case5 c rest hc ih =>
    intro hok
    simp only [childrenNoFailure, Bool.and_eq_true] at hok
    simp [addChildren, hc, ih hok.2]
  | case6 c rest hc h listing hlt =>
    intro hok
    exfalso
    cases listing <;> simp [childrenNoFailure, hlt] at hok
  | case7 c rest hc h listing hlt sub hsubLt ihsub =>
    intro hok
    exfalso
    cases listing with
    | none => simp [childrenNoFailure] at hok
    | some cs =>
      simp only [childrenNoFailure, Bool.and_eq_true] at hok
      have hs : sub = addChildren hasCancel cs := rfl
      rw [hs, ihsub hok.2.1.2] at hsubLt
      simp [ARCHIVE_OK] at hsubLt
  | case8 c rest hc h listing hlt sub hsubGe ihsub ih =>
    intro hok
    cases listing with
    | none => simp [childrenNoFailure] at hok
    | some cs =>
      simp only [childrenNoFailure, Bool.and_eq_true] at hok
      have hs : sub = addChildren hasCancel cs := rfl
      rw [hs] at hsubGe
      simp [addChildren, hc, hlt, hsubGe, ih hok.2.2]
  | case9 c rest hc h fileOk chunks hlt =>
    intro hok
    exfalso
    simp [childrenNoFailure, hlt] at hok
  | case10 c rest hc h chunks hlt ih =>
    intro hok
    simp only [childrenNoFailure, Bool.and_eq_true] at hok
    simp [addChildren, hc, hlt, ih hok.2.2]
  | case11 c rest hc h fileOk chunks hlt hfile =>
    intro hok
    exfalso
    have : fileOk = false := by simpa using hfile
    simp [childrenNoFailure, hlt, this] at hok

/-! ## Claim theorems -/

/-- Claim C4: in every `copy_data` iteration the cancellation flag is
polled before the next block is read; if the flag is non-null and set the
function returns `OperationCancelled` (-9) without issuing the pending
write (zero write calls from this point); when the read side reports
end-of-stream the function returns `ARCHIVE_OK` without further writes. -/
theorem copy_data_cancel_and_eof (hasCancel : Bool) (it : CopyIter) (rest : List CopyIter) :
    (hasCancel = true → it.cancelSet = true →
      copy_data hasCancel (it :: rest) = (some ERROR_OPERATION_CANCELLED, 0)) ∧
    (¬ (hasCancel = true ∧ it.cancelSet = true) → it.readStatus = ARCHIVE_EOF →
      copy_data hasCancel (it :: rest) = (some ARCHIVE_OK, 0)) := by
  constructor
  · intro h1 h2
    simp [copy_data, h1, h2]
  · intro h1 h2
    simp [copy_data, h1, h2]

/-- Witness for claim C4 at concrete inputs: a first iteration with the
flag set is cancelled with no write; a first iteration reporting
end-of-stream succeeds with no write. -/
theorem copy_data_cancel_and_eof_witness :
    copy_data true [{ cancelSet := true, readStatus := ARCHIVE_OK, writeStatus := ARCHIVE_OK }] =
      (some ERROR_OPERATION_CANCELLED, 0) ∧
    copy_data false [{ cancelSet := false, readStatus := ARCHIVE_EOF, writeStatus := ARCHIVE_OK }] =
      (some ARCHIVE_OK, 0) :=
  ⟨(copy_data_cancel_and_eof true
      { cancelSet := true, readStatus := ARCHIVE_OK, writeStatus := ARCHIVE_OK } []).1 rfl rfl,
   (copy_data_cancel_and_eof false
      { cancelSet := false, readStatus := ARCHIVE_EOF, writeStatus := ARCHIVE_OK } []).2
      (by decide) rfl⟩

/-- Claim C3: `check_archive_encryption` returns `OpenFileFailed` (-2) when
the archive cannot be opened; otherwise it returns `Present` (1) exactly
when some entry before the first non-OK header-read status carries the
encrypted flag, and `None` (0) otherwise — any header-read failure ends the
scan like end-of-stream, and the open-OK case never yields an error code. -/
theorem check_archive_encryption_spec (openStatus : Int) (entries : List (Int × Bool)) (r : Int)
    (h : check_archive_encryption openStatus entries = some r) :
    (openStatus ≠ ARCHIVE_OK → r = ERROR_OPEN_FILE_FAILED) ∧
    (openStatus = ARCHIVE_OK →
      r = (if specEncryptedBeforeStop entries then ENCRYPTION_PRESENT else ENCRYPTION_NONE)) ∧
    (openStatus = ARCHIVE_OK → r = ENCRYPTION_NONE ∨ r = ENCRYPTION_PRESENT) := by
  refine ⟨?_, ?_, ?_⟩
  · intro hopen
    simp [check_archive_encryption, hopen] at h
    exact h.symm
  · intro hopen
    simp only [check_archive_encryption, hopen, ne_eq, not_true_eq_false, if_false,
      Option.map_eq_some'] at h
    obtain ⟨b, hb, hr⟩ := h
    rw [encScan_eq_spec entries b hb] at hr
    exact hr.symm
  · intro hopen
    simp only [check_archive_encryption, hopen, ne_eq, not_true_eq_false, if_false,
      Option.map_eq_some'] at h
    obtain ⟨b, _, hr⟩ := h
    cases b with
    | false => left; simp at hr; exact hr.symm
    | true => right; simp at hr; exact hr.symm

/-- Witness for claim C3: an archive that opens, with one plain entry
followed by one encrypted entry, reports `Present`; the scan result
agrees with the specification predicate. -/
theorem check_archive_encryption_spec_witness :
    check_archive_encryption ARCHIVE_OK [(ARCHIVE_OK, false), (ARCHIVE_OK, true)] =
      some ENCRYPTION_PRESENT ∧
    (ARCHIVE_OK = ARCHIVE_OK →
      ENCRYPTION_PRESENT =
        (if specEncryptedBeforeStop [(ARCHIVE_OK, false), (ARCHIVE_OK, true)] then
          ENCRYPTION_PRESENT else ENCRYPTION_NONE)) :=
  ⟨by decide,
   (check_archive_encryption_spec ARCHIVE_OK [(ARCHIVE_OK, false), (ARCHIVE_OK, true)]
      ENCRYPTION_PRESENT (by decide)).2.1⟩

/-- Claim C6: in the Directory Walker, a failed `stat` of a child is
non-fatal — that child is skipped and the walk of the remaining children
continues unchanged — whereas a failed `opendir`, at the root of a walk or
when recursing into a subdirectory, aborts the walk returning
`ARCHIVE_FATAL`. -/
theorem walker_stat_skip_opendir_fatal (hasCancel : Bool) (c c' : Bool) (h : Int)
    (rest rest' : List (Bool × DirChild))
    (hc : ¬ (hasCancel = true ∧ c = true))
    (hc' : ¬ (hasCancel = true ∧ c' = true))
    (hh : ¬ h < ARCHIVE_OK) :
    addChildren hasCancel ((c, .statFail) :: rest) = addChildren hasCancel rest ∧
    add_directory_to_archive hasCancel none = (ARCHIVE_FATAL, 0) ∧
    addChildren hasCancel ((c', .subdir h none) :: rest') = (ARCHIVE_FATAL, 0) := by
  refine ⟨?_, rfl, ?_⟩
  · simp [addChildren, hc]
  · have hfatal : (ARCHIVE_FATAL : Int) < ARCHIVE_OK := by decide
    simp [addChildren, hc', hh, hfatal]

/-- Witness for claim C6 at concrete inputs: a stat-failed child followed by
an end of listing behaves like the empty listing; a failed `opendir` at the
root and below a healthy subdirectory entry both yield `ARCHIVE_FATAL`. -/
theorem walker_stat_skip_opendir_fatal_witness :
    addChildren false [(false, .statFail)] = addChildren false [] ∧
    add_directory_to_archive false none = (ARCHIVE_FATAL, 0) ∧
    addChildren false [(false, .subdir ARCHIVE_OK none)] = (ARCHIVE_FATAL, 0) :=
  walker_stat_skip_opendir_fatal false false false ARCHIVE_OK [] []
    (by decide) (by decide) (by decide)

/-- Claim C1: when the cancellation flag is non-null and already set at
entry, both `extract_archive` and `compress_files` return
`OperationCancelled` (-9) with the initial trace: no session opened, no
`mkdir`, no directory change, no destination open, no writes. -/
theorem cancelled_at_entry_no_side_effects (pwE pwC : Bool) (format : Int)
    (envE : ExtractEnv) (envC : CompressEnv)
    (hE : envE.cancelAtEntry = true) (hC : envC.cancelAtEntry = true) :
    extract_archive true pwE envE = some (ERROR_OPERATION_CANCELLED, ExtractTrace.initial) ∧
    compress_files true pwC format envC = (ERROR_OPERATION_CANCELLED, CompressTrace.initial) ∧
    ExtractTrace.initial.readCreated = false ∧
    ExtractTrace.initial.writeCreated = false ∧
    ExtractTrace.initial.mkdirCalled = false ∧
    ExtractTrace.initial.changedDir = false ∧
    ExtractTrace.initial.diskWrites = 0 ∧
    CompressTrace.initial.writeNewCalled = false ∧
    CompressTrace.initial.destOpenAttempted = false ∧
    CompressTrace.initial.dataWrites = 0 := by
  refine ⟨?_, ?_, rfl, rfl, rfl, rfl, rfl, rfl, rfl, rfl⟩
  · simp [extract_archive, hE]
  · simp [compress_files, hC]

/-- Witness for claim C1 at concrete environments with the flag set. -/
theorem cancelled_at_entry_no_side_effects_witness :
    extract_archive true false cancelledExtractEnv =
      some (ERROR_OPERATION_CANCELLED, ExtractTrace.initial) ∧
    compress_files true false 1 cancelledCompressEnv =
      (ERROR_OPERATION_CANCELLED, CompressTrace.initial) :=
  ⟨(cancelled_at_entry_no_side_effects false false 1 cancelledExtractEnv cancelledCompressEnv
      rfl rfl).1,
   (cancelled_at_entry_no_side_effects false false 1 cancelledExtractEnv cancelledCompressEnv
      rfl rfl).2.1⟩

/-- Claim C2: in `extract_archive`'s entry loop, whenever a processed entry
(one not skipped as end-of-stream or retry) has the encrypted flag set:
with a null password the run aborts returning `PasswordRequired` (-6); with
a password supplied and a negative header-read status it aborts returning
`WrongPassword` (-7). -/
theorem encrypted_entry_password_errors (hasCancel : Bool) (env : ExtractEnv)
    (it : ExtractIter) (rest : List ExtractIter)
    (hc0 : ¬ (hasCancel = true ∧ env.cancelAtEntry = true))
    (hpass : env.addPassStatus = ARCHIVE_OK)
    (hopen : env.openStatus = ARCHIVE_OK)
    (hcwd : env.getcwdOk = true) (hch : env.chdirOk = true)
    (hit : env.iters = it :: rest)
    (hc1 : ¬ (hasCancel = true ∧ it.cancelSet = true))
    (heof : it.headerStatus ≠ ARCHIVE_EOF)
    (hretry : it.headerStatus ≠ ARCHIVE_RETRY)
    (henc : it.encrypted = true) :
    (∃ tr, extract_archive hasCancel false env = some (ERROR_PASSWORD_REQUIRED, tr)) ∧
    (it.headerStatus < ARCHIVE_OK →
      ∃ tr, extract_archive hasCancel true env = some (ERROR_WRONG_PASSWORD, tr)) := by
  constructor
  · refine ⟨(extractCleanup ERROR_PASSWORD_REQUIRED true true env.destMissing true 0).2, ?_⟩
    simp [extract_archive, extractLoop, extractCleanup, hc0, hpass, hopen, hcwd, hch, hit,
      hc1, heof, hretry, henc]
  · intro hlt
    refine ⟨(extractCleanup ERROR_WRONG_PASSWORD true true env.destMissing true 0).2, ?_⟩
    simp [extract_archive, extractLoop, extractCleanup, hc0, hpass, hopen, hcwd, hch, hit,
      hc1, heof, hretry, henc, hlt]

/-- Witness for claim C2: an encrypted first entry whose header read
returned `ARCHIVE_WARN` (negative) yields `PasswordRequired` without a
password and `WrongPassword` with one. -/
theorem encrypted_entry_password_errors_witness :
    (∃ tr, extract_archive false false encWarnEnv = some (ERROR_PASSWORD_REQUIRED, tr)) ∧
    (∃ tr, extract_archive false true encWarnEnv = some (ERROR_WRONG_PASSWORD, tr)) := by
  have h := encrypted_entry_password_errors false encWarnEnv encWarnIter []
    (by decide) rfl rfl rfl rfl rfl (by decide) (by decide) (by decide) rfl
  exact ⟨h.1, h.2 (by decide)⟩

/-- Claim C7: on every terminating run of `extract_archive`, the original
working directory is restored whenever it was changed, and each of the
read- and write-sessions is closed and freed whenever it was created —
on success, on every error return and on cancellation. -/
theorem extract_archive_restores_and_releases (hasCancel passwordGiven : Bool)
    (env : ExtractEnv) (r : Int) (tr : ExtractTrace)
    (h : extract_archive hasCancel passwordGiven env = some (r, tr)) :
    (tr.changedDir = true → tr.restoredDir = true) ∧
    (tr.readCreated = true → tr.readClosed = true ∧ tr.readFreed = true) ∧
    (tr.writeCreated = true → tr.writeClosed = true ∧ tr.writeFreed = true) := by
  unfold extract_archive at h
  repeat' split at h
  case _ =>
    simp only [Option.some.injEq, Prod.mk.injEq] at h
    obtain ⟨h1, h2⟩ := h
    subst h2
    simp [ExtractTrace.initial]
  all_goals
    first
    | (simp only [extractCleanup, Option.some.injEq, Prod.mk.injEq] at h
       obtain ⟨h1, h2⟩ := h
       subst h2
       simp)
    | (obtain ⟨⟨res, w⟩, hl, hmap⟩ := Option.map_eq_some'.mp h
       rw [Prod.ext_iff] at hmap
       obtain ⟨h1, h2⟩ := hmap
       subst h2
       simp [extractCleanup])

/-- Witness for claim C7 at a concrete successful run: every resource that
was created was released and the working directory change was undone. -/
theorem extract_archive_restores_and_releases_witness :
    extract_archive false false fullRunEnv = some (SUCCESS, fullRunTrace) ∧
    ((fullRunTrace.changedDir = true → fullRunTrace.restoredDir = true) ∧
     (fullRunTrace.readCreated = true →
        fullRunTrace.readClosed = true ∧ fullRunTrace.readFreed = true) ∧
     (fullRunTrace.writeCreated = true →
        fullRunTrace.writeClosed = true ∧ fullRunTrace.writeFreed = true)) :=
  ⟨by decide,
   extract_archive_restores_and_releases false false fullRunEnv SUCCESS fullRunTrace (by decide)⟩

/-- Counterexample to claim C5 as stated: in a run whose single entry's
data copy fails on the read side (`archive_read_data_block` returns
`ARCHIVE_FATAL`), extraction surfaces `ExtractFailed` (-4), not
`ReadEntryFailed` (-3); and in a run failing on the write side
(`archive_write_data_block` returns `ARCHIVE_FAILED`), extraction also
surfaces `ExtractFailed` (-4), not the underlying write error (-25). -/
theorem copy_failure_surfaces_extract_failed_cex :
    ((extract_archive false false readFailRunEnv).map (fun p => p.1) =
        some ERROR_EXTRACT_FAILED ∧
      ERROR_EXTRACT_FAILED ≠ ERROR_READ_ENTRY_FAILED) ∧
    ((extract_archive false false writeFailRunEnv).map (fun p => p.1) =
        some ERROR_EXTRACT_FAILED ∧
      ERROR_EXTRACT_FAILED ≠ ARCHIVE_FAILED) :=
  ⟨⟨by decide, by decide⟩, ⟨by decide, by decide⟩⟩

/-- Claim C5 as amended: on a negative status from the read side or the
write side the Data Copier aborts returning that raw negative status
itself (read-side: the read status, with the pending block not written;
write-side: the write status); `extract_archive` then surfaces any
non-cancellation Data Copier failure — read-side or write-side alike — as
`ExtractFailed` (-4). -/
theorem copy_data_failure_raw_status_then_extract_failed
    (hasCancel passwordGiven : Bool) (it : CopyIter) (rest : List CopyIter)
    (env : ExtractEnv) (eit : ExtractIter) (erest : List ExtractIter) (r : Int) (w : Nat) :
    (¬ (hasCancel = true ∧ it.cancelSet = true) → it.readStatus ≠ ARCHIVE_EOF →
      it.readStatus < ARCHIVE_OK →
      copy_data hasCancel (it :: rest) = (some it.readStatus, 0)) ∧
    (¬ (hasCancel = true ∧ it.cancelSet = true) → it.readStatus ≠ ARCHIVE_EOF →
      ¬ it.readStatus < ARCHIVE_OK → it.writeStatus < ARCHIVE_OK →
      copy_data hasCancel (it :: rest) = (some it.writeStatus, 1)) ∧
    (¬ (hasCancel = true ∧ env.cancelAtEntry = true) →
      env.addPassStatus = ARCHIVE_OK → env.openStatus = ARCHIVE_OK →
      env.getcwdOk = true → env.chdirOk = true →
      env.iters = eit :: erest →
      ¬ (hasCancel = true ∧ eit.cancelSet = true) →
      eit.headerStatus = ARCHIVE_OK →
      eit.encrypted = false →
      ¬ eit.writeHeaderStatus < ARCHIVE_OK →
      0 < eit.entrySize →
      copy_data hasCancel eit.copyIters = (some r, w) →
      r < ARCHIVE_OK → r ≠ ERROR_OPERATION_CANCELLED →
      extract_archive hasCancel passwordGiven env =
        some (extractCleanup ERROR_EXTRACT_FAILED true true env.destMissing true (w + 1))) := by
  refine ⟨?_, ?_, ?_⟩
  · intro h1 h2 h3
    simp [copy_data, h1, h2, h3]
  · intro h1 h2 h3 h4
    simp [copy_data, h1, h2, h3, h4]
  · intro hc0 hpass hopen hcwd hch hit hc1 hhd henc hwh hsz hcd hlt hnc
    have e1 : (ARCHIVE_OK : Int) = ARCHIVE_EOF ↔ False := by decide
    have e2 : (ARCHIVE_OK : Int) = ARCHIVE_RETRY ↔ False := by decide
    have e3 : (ARCHIVE_OK : Int) < ARCHIVE_OK ↔ False := by decide
    simp [extract_archive, extractLoop, hc0, hpass, hopen, hcwd, hch, hit, hc1, hhd, henc,
      hwh, hsz, hcd, hlt, hnc, e1, e2, e3]

/-- Witness for the amended claim C5: a fatal read status is returned raw
with nothing written, a failing write status is returned raw after the one
write call, and the read-side failure run of extraction surfaces
`ExtractFailed`. -/
theorem copy_data_failure_raw_status_then_extract_failed_witness :
    copy_data false
        [{ cancelSet := false, readStatus := ARCHIVE_FATAL, writeStatus := ARCHIVE_OK }] =
      (some ARCHIVE_FATAL, 0) ∧
    copy_data false
        [{ cancelSet := false, readStatus := ARCHIVE_OK, writeStatus := ARCHIVE_FAILED }] =
      (some ARCHIVE_FAILED, 1) ∧
    extract_archive false false readFailRunEnv =
      some (extractCleanup ERROR_EXTRACT_FAILED true true false true 1) := by
  have h := copy_data_failure_raw_status_then_extract_failed false false
    { cancelSet := false, readStatus := ARCHIVE_FATAL, writeStatus := ARCHIVE_OK } []
    readFailRunEnv
    { cancelSet := false, headerStatus := ARCHIVE_OK, encrypted := false,
      writeHeaderStatus := ARCHIVE_OK, entrySize := 1,
      copyIters := [{ cancelSet := false, readStatus := ARCHIVE_FATAL,
                      writeStatus := ARCHIVE_OK }] }
    [] ARCHIVE_FATAL 0
  have h' := copy_data_failure_raw_status_then_extract_failed false false
    { cancelSet := false, readStatus := ARCHIVE_OK, writeStatus := ARCHIVE_FAILED } []
    readFailRunEnv
    { cancelSet := false, headerStatus := ARCHIVE_OK, encrypted := false,
      writeHeaderStatus := ARCHIVE_OK, entrySize := 1,
      copyIters := [{ cancelSet := false, readStatus := ARCHIVE_FATAL,
                      writeStatus := ARCHIVE_OK }] }
    [] ARCHIVE_FATAL 0
  refine ⟨h.1 (by decide) (by decide) (by decide),
          h'.2.1 (by decide) (by decide) (by decide) (by decide),
          h.2.2 (by decide) rfl rfl rfl rfl rfl (by decide) rfl rfl (by decide) (by decide)
            (by decide) (by decide) (by decide)⟩

/-- Claim C8: `compress_files` on an existing source with a format selector
outside 1..9 returns `UnsupportedFormat` (-8) without ever attempting to
open the destination archive for writing (the dispatch precedes the open). -/
theorem unsupported_format_no_dest (hasCancel passwordGiven : Bool) (format : Int)
    (env : CompressEnv) (src : SrcKind)
    (hc : ¬ (hasCancel = true ∧ env.cancelAtEntry = true))
    (hsrc : env.src = some src)
    (hfmt : format < 1 ∨ 9 < format) :
    compress_files hasCancel passwordGiven format env =
      (ERROR_UNSUPPORTED_FORMAT,
       { writeNewCalled := true, passphraseRegistered := false, destOpenAttempted := false,
         sessionClosed := true, sessionFreed := true, dataWrites := 0 }) := by
  have hv : validFormat format = false := by
    simp only [validFormat, Bool.or_eq_false_iff, beq_eq_false_iff_ne, ne_eq]
    omega
  simp [compress_files, compressCleanup, hc, hsrc, hv]

/-- Witness for claim C8: format selector 100 on an existing regular-file
source returns `UnsupportedFormat` with the destination never opened. -/
theorem unsupported_format_no_dest_witness :
    compress_files false false 100 regChunkFailEnv =
      (ERROR_UNSUPPORTED_FORMAT,
       { writeNewCalled := true, passphraseRegistered := false, destOpenAttempted := false,
         sessionClosed := true, sessionFreed := true, dataWrites := 0 }) :=
  unsupported_format_no_dest false false 100 regChunkFailEnv
    (.reg { headerStatus := ARCHIVE_OK, fileOpenOk := true,
            chunks := [(false, ARCHIVE_FAILED)] })
    (by decide) rfl (by decide)

/-- With no password supplied, `compress_files` never registers a
passphrase, whatever else happens. -/
theorem compress_files_no_password_no_passphrase (hasCancel : Bool) (format : Int)
    (env : CompressEnv) :
    (compress_files hasCancel false format env).2.passphraseRegistered = false := by
  unfold compress_files
  split
  · simp [CompressTrace.initial]
  · cases env.src with
    | none => simp [compressCleanup]
    | some src =>
      cases src <;> simp_all [compressCleanup] <;> split_ifs <;> rfl

/-- Claim C9: when a password is supplied with a format other than 1 (ZIP)
and 6 (7Z), the run is identical to the run with no password — the
password is ignored, no passphrase is registered, and its presence never by
itself causes failure. -/
theorem password_ignored_for_plain_formats (hasCancel : Bool) (format : Int)
    (env : CompressEnv) (h1 : format ≠ 1) (h6 : format ≠ 6) :
    compress_files hasCancel true format env = compress_files hasCancel false format env ∧
    (compress_files hasCancel true format env).2.passphraseRegistered = false := by
  have e1 : (format == 1) = false := beq_eq_false_iff_ne.mpr h1
  have e6 : (format == 6) = false := beq_eq_false_iff_ne.mpr h6
  have heq : compress_files hasCancel true format env =
      compress_files hasCancel false format env := by
    simp [compress_files, h1, h6, e1, e6]
  exact ⟨heq, heq ▸ compress_files_no_password_no_passphrase hasCancel format env⟩

/-- Witness for claim C9: a TAR (format 2) compression of a regular file
with a password behaves exactly like the same run without one and registers
no passphrase. -/
theorem password_ignored_for_plain_formats_witness :
    compress_files false true 2 regChunkFailEnv = compress_files false false 2 regChunkFailEnv ∧
    (compress_files false true 2 regChunkFailEnv).2.passphraseRegistered = false :=
  password_ignored_for_plain_formats false 2 regChunkFailEnv (by decide) (by decide)

/-- Claim C10: during content streaming in compression — the single-file
branch of `compress_files` and the regular-file case of the Directory
Walker alike — the statuses of the `archive_write_data` calls are never
examined: in any run where everything else succeeds, the result is
`Success` (0) whatever those statuses are, including failing ones. -/
theorem data_write_status_never_examined (hasCancel : Bool) (format : Int) (env : CompressEnv)
    (hc : ¬ (hasCancel = true ∧ env.cancelAtEntry = true))
    (hfmt : validFormat format = true)
    (hopen : env.openDestStatus = ARCHIVE_OK) :
    (∀ info : RegInfo, env.src = some (.reg info) →
      ¬ info.headerStatus < ARCHIVE_OK → info.fileOpenOk = true →
      (∀ p ∈ info.chunks, p.1 = false) →
      (compress_files hasCancel false format env).1 = SUCCESS) ∧
    (∀ cs, env.src = some (.dir (some cs)) → childrenNoFailure cs = true →
      (compress_files hasCancel false format env).1 = SUCCESS) := by
  constructor
  · intro info hsrc hhd hfile hchunks
    have hwc := writeFileChunks_not_cancelled hasCancel info.chunks hchunks
    simp [compress_files, compressCleanup, hc, hsrc, hfmt, hopen, hhd, hfile, hwc]
  · intro cs hsrc hok
    have hw := addChildren_fst_ok hasCancel cs hok
    have hnlt : ¬ (addChildren hasCancel cs).1 < ARCHIVE_OK := by
      rw [hw]
      simp
    simp [compress_files, compressCleanup, add_directory_to_archive, hc, hsrc, hfmt, hopen,
      hnlt]

/-- Witness for claim C10: a regular-file compression whose single data
write would fail, and a directory compression holding one file whose data
write would fail, both still return `Success`. -/
theorem data_write_status_never_examined_witness :
    (compress_files false false 2 regChunkFailEnv).1 = SUCCESS ∧
    (compress_files false false 2 dirChunkFailEnv).1 = SUCCESS :=
  ⟨(data_write_status_never_examined false 2 regChunkFailEnv (by decide) (by decide) rfl).1
      { headerStatus := ARCHIVE_OK, fileOpenOk := true, chunks := [(false, ARCHIVE_FAILED)] }
      rfl (by decide) rfl (by decide),
   (data_write_status_never_examined false 2 dirChunkFailEnv (by decide) (by decide) rfl).2
      [(false, .regfile ARCHIVE_OK true [ARCHIVE_FATAL])] rfl
      (by simp [childrenNoFailure, ARCHIVE_OK])⟩

end SwiftLibarchive
